import Mathlib

/-!
Shallow embedding of the `ReconnectingWebSocket` reconnection core
(`nktkas/rews`, file `mod.ts`).  Pure functions model the stateful
methods by explicit state passing over a `Handle` record; the
asynchronous reconnection loop is modelled as a fuel-style recursion
over a script of environment inputs (one entry per loop iteration).
-/

namespace RWS

/-- Error code indicating the type of reconnection failure
(source type `ReconnectingWebSocketErrorCode`). -/
inductive ErrorCode
  | RECONNECTION_LIMIT
  | TERMINATED_BY_USER
  | UNKNOWN_ERROR
  deriving DecidableEq, Repr

/-- Model of `ReconnectingWebSocketError`: the code together with the
optional underlying cause (faults are modelled as strings). -/
structure RWSError where
  code : ErrorCode
  cause : Option String
  deriving DecidableEq, Repr

/-- WebSocket ready states (`CONNECTING = 0`, `OPEN = 1`, `CLOSING = 2`,
`CLOSED = 3`). -/
inductive ReadyState
  | CONNECTING
  | OPEN
  | CLOSING
  | CLOSED
  deriving DecidableEq, Repr

/-- Payload of a `CloseEvent`: code, reason and the `wasClean` flag. -/
structure CloseInfo where
  code : Nat
  reason : String
  wasClean : Bool
  deriving DecidableEq, Repr

/-- Public events dispatched on the handle (`EventTarget.dispatchEvent`
calls in the source), including the custom `terminate` event. -/
inductive Event
  | opened
  | message (data : String)
  | error
  | closeE (info : CloseInfo)
  | terminate (err : RWSError)
  deriving DecidableEq, Repr

/-- The mutable state of one `ReconnectingWebSocket` instance: the
attempt counter, the outbound message buffer, the ready state of the
current underlying socket, and the `AbortController` signal state
(`aborted` flag plus abort `reason`). -/
structure Handle where
  attempt : Nat
  messageBuffer : List String
  socketState : ReadyState
  aborted : Bool
  abortReason : Option RWSError
  deriving DecidableEq, Repr

/-- State of the handle right after the constructor ran (before the
first loop iteration replaces the socket). -/
def initialHandle : Handle :=
  { attempt := 0, messageBuffer := [], socketState := ReadyState.CONNECTING,
    aborted := false, abortReason := none }

/-- Getter `isTerminated`: `this._abortController.signal.aborted`. -/
def Handle.isTerminated (h : Handle) : Bool :=
  h.aborted

/-- Getter `terminationReason`: `this._abortController.signal.reason`. -/
def Handle.terminationReason (h : Handle) : Option RWSError :=
  h.abortReason

/-- Effect of calling `close()` on a raw WebSocket: a socket in
`CONNECTING` or `OPEN` moves to `CLOSING`; on `CLOSING`/`CLOSED` the
call is a no-op. -/
def closeRS : ReadyState → ReadyState
  | ReadyState.CLOSED => ReadyState.CLOSED
  | ReadyState.CLOSING => ReadyState.CLOSING
  | _ => ReadyState.CLOSING

/-- Method `_cleanup(code, cause)` (source lines 356-366): if already
terminated return immediately; otherwise build the error, abort the
signal with it, close the current socket, clear the message buffer and
dispatch one `terminate` event. -/
def cleanup (h : Handle) (code : ErrorCode) (cause : Option String) :
    Handle × List Event :=
  if h.isTerminated then (h, [])
  else
    let error : RWSError := { code := code, cause := cause }
    ({ h with aborted := true, abortReason := some error,
              socketState := closeRS h.socketState, messageBuffer := [] },
     [Event.terminate error])

/-- Result of a `close(code, reason, permanently)` call: the new handle
state, the events dispatched on the handle, and the synthetic
`CloseEvent` dispatched on the underlying socket when it was still
`CONNECTING`. -/
structure CloseResult where
  handle : Handle
  events : List Event
  synthetic : Option CloseInfo
  deriving DecidableEq, Repr

/-- Method `close(code, reason, permanently = true)` (source lines
509-523): record whether the socket was `CONNECTING`, close the
underlying socket, run `_cleanup("TERMINATED_BY_USER")` when
`permanently`, and when the socket was `CONNECTING` dispatch a
synthetic `CloseEvent` with code `1006`, empty reason and
`wasClean = false` on the underlying socket. -/
def close (h : Handle) (code : Option Nat) (reason : String)
    (permanently : Bool) : CloseResult :=
  let wasConnecting := h.socketState = ReadyState.CONNECTING
  let h1 := { h with socketState := closeRS h.socketState }
  let step := if permanently then cleanup h1 ErrorCode.TERMINATED_BY_USER none
              else (h1, [])
  { handle := step.1, events := step.2,
    synthetic :=
      if wasConnecting then
        some { code := 1006, reason := "", wasClean := false }
      else none }

/-- Method `send(data)` (source lines 533-539): buffer when the socket
is not `OPEN` and the handle is not terminated, otherwise forward the
payload to the underlying socket.  The second component is the payload
forwarded to `this._socket.send`, when any. -/
def send (h : Handle) (data : String) : Handle × Option String :=
  if h.socketState ≠ ReadyState.OPEN ∧ h.isTerminated = false then
    ({ h with messageBuffer := h.messageBuffer ++ [data] }, none)
  else
    (h, some data)

/-- The flush loop of the `open` listener (source lines 313-317):
starting from `sentCount`, send entries until one send throws.  The
oracle `sendOk i` tells whether the `i`-th `socket.send` call of this
flush succeeds.  Returns the final `sentCount` and whether the whole
buffer was sent. -/
def flushFrom (sendOk : Nat → Bool) : Nat → List String → Nat × Bool
  | sentCount, [] => (sentCount, true)
  | sentCount, _ :: rest =>
      if sendOk sentCount then flushFrom sendOk (sentCount + 1) rest
      else (sentCount, false)

/-- The `open` listener of `_awaitSocketLifecycle` (source lines
309-326): reset the attempt counter to 0, flush the buffer; on full
success clear the buffer and dispatch the public `open` event; on a
failed send remove only the successfully sent entries
(`splice(0, sentCount)`), force-close the socket and dispatch nothing.
The third component lists the payloads actually handed to
`socket.send`. -/
def handleOpen (sendOk : Nat → Bool) (h : Handle) :
    Handle × List Event × List String :=
  let h0 : Handle := { h with attempt := 0, socketState := ReadyState.OPEN }
  let r := flushFrom sendOk 0 h0.messageBuffer
  if r.2 then
    ({ h0 with messageBuffer := [] }, [Event.opened], h0.messageBuffer)
  else
    ({ h0 with messageBuffer := h0.messageBuffer.drop r.1,
               socketState := closeRS ReadyState.OPEN },
     [], h0.messageBuffer.take r.1)

/-- Notifications observed on one underlying socket during one attempt,
in order, plus user `close()` calls interleaved with them.  `opened`
carries the success oracle for the flush's `socket.send` calls. -/
inductive SockNotif
  | opened (sendOk : Nat → Bool)
  | message (data : String)
  | error
  | userClose (code : Option Nat) (reason : String) (permanently : Bool)
  | closed (info : CloseInfo)

/-- Result of `_awaitSocketLifecycle`: final handle state, the public
events dispatched, and whether the promise resolved (a `close`
notification was processed). -/
structure AwaitResult where
  handle : Handle
  events : List Event
  resolved : Bool

/-- Method `_awaitSocketLifecycle` (source lines 304-348), driven by
the script of socket notifications: `open` runs `handleOpen`,
`message`/`error` re-dispatch public events, a user `close()` call runs
`close` (and when it synthesizes a socket `CloseEvent` the close
listener fires, detaches all listeners via `ac.abort()` and resolves),
and a `close` notification dispatches the public close event and
resolves: notifications after it are ignored. -/
def processNotifs (h : Handle) : List SockNotif → AwaitResult
  | [] => { handle := h, events := [], resolved := false }
  | SockNotif.opened sendOk :: rest =>
      let r := handleOpen sendOk h
      let a := processNotifs r.1 rest
      { handle := a.handle, events := r.2.1 ++ a.events, resolved := a.resolved }
  | SockNotif.message d :: rest =>
      let a := processNotifs h rest
      { handle := a.handle, events := Event.message d :: a.events,
        resolved := a.resolved }
  | SockNotif.error :: rest =>
      let a := processNotifs h rest
      { handle := a.handle, events := Event.error :: a.events,
        resolved := a.resolved }
  | SockNotif.userClose code reason perm :: rest =>
      let c := close h code reason perm
      match c.synthetic with
      | some info =>
          { handle := c.handle, events := c.events ++ [Event.closeE info],
            resolved := true }
      | none =>
          let a := processNotifs c.handle rest
          { handle := a.handle, events := c.events ++ a.events,
            resolved := a.resolved }
  | SockNotif.closed info :: _ =>
      { handle := { h with socketState := ReadyState.CLOSED },
        events := [Event.closeE info], resolved := true }

/-- Resolved reconnection options (`Required<ReconnectingWebSocketOptions>`
minus the constructor): `connectionTimeout = none` models `null`
(disabled), and `reconnectionDelay` is either a number or a function of
the attempt index that may throw. -/
structure Config where
  maxRetries : Nat
  connectionTimeout : Option Nat
  reconnectionDelay : Nat ⊕ (Nat → Except String Nat)

/-- Options as passed by the user: `none` models an absent field, and
for `connectionTimeout` the inner `Option` models `null`. -/
structure Options where
  maxRetries : Option Nat
  connectionTimeout : Option (Option Nat)
  reconnectionDelay : Option (Nat ⊕ (Nat → Except String Nat))

/-- The default delay policy `(n) => Math.min(2 ** n * 150, 10_000)`
(source line 247). -/
def defaultReconnectionDelay (n : Nat) : Nat :=
  min (2 ^ n * 150) 10000

/-- Option defaulting performed by the constructor (source lines
243-248): `maxRetries ?? 3`,
`connectionTimeout === undefined ? 10_000 : connectionTimeout`, and
`reconnectionDelay ?? ((n) => Math.min(2 ** n * 150, 10_000))`. -/
def resolveOptions (o : Options) : Config :=
  { maxRetries := o.maxRetries.getD 3,
    connectionTimeout := o.connectionTimeout.getD (some 10000),
    reconnectionDelay :=
      o.reconnectionDelay.getD
        (Sum.inr fun n => Except.ok (defaultReconnectionDelay n)) }

/-- Environment input for one iteration of `_runLoop`: either socket
creation throws (URL/protocol provider or constructor failure), or a
socket is created and lives through `script`, with `closeDuringSleep`
recording a user `close()` (permanent) arriving while the
reconnection delay is pending. -/
inductive IterInput
  | createThrows (fault : String)
  | attempt (script : List SockNotif) (closeDuringSleep : Bool)

/-- Outcome of one iteration of the reconnection loop. -/
structure IterResult where
  handle : Handle
  events : List Event
  exited : Bool
  stalled : Bool
  created : Bool
  sleptDelay : Option Nat

/-- One iteration of `_runLoop` (source lines 279-301): create the
socket (a throw is caught at the loop boundary and becomes
`_cleanup("UNKNOWN_ERROR", error)`), await its lifecycle, break if
terminated, terminate with `RECONNECTION_LIMIT` when
`attempt >= maxRetries`, otherwise increment `_attempt`, compute the
delay from the pre-increment `attempt` (a throwing delay function is
likewise caught), and sleep — a permanent `close()` during the sleep
aborts the signal, making `sleep` reject with the abort reason, which
the catch hands to `_cleanup("UNKNOWN_ERROR", ...)` (a no-op then,
since the handle is already terminated). -/
def runIter (cfg : Config) (h : Handle) : IterInput → IterResult
  | IterInput.createThrows fault =>
      let c := cleanup h ErrorCode.UNKNOWN_ERROR (some fault)
      { handle := c.1, events := c.2, exited := true, stalled := false,
        created := false, sleptDelay := none }
  | IterInput.attempt script closeDuringSleep =>
      let h0 : Handle := { h with socketState := ReadyState.CONNECTING }
      let a := processNotifs h0 script
      if a.resolved = false then
        { handle := a.handle, events := a.events, exited := false,
          stalled := true, created := true, sleptDelay := none }
      else if a.handle.isTerminated then
        { handle := a.handle, events := a.events, exited := true,
          stalled := false, created := true, sleptDelay := none }
      else
        let attempt := a.handle.attempt
        if cfg.maxRetries ≤ attempt then
          let c := cleanup a.handle ErrorCode.RECONNECTION_LIMIT none
          { handle := c.1, events := a.events ++ c.2, exited := true,
            stalled := false, created := true, sleptDelay := none }
        else
          let h2 : Handle := { a.handle with attempt := a.handle.attempt + 1 }
          let delay : Except String Nat :=
            match cfg.reconnectionDelay with
            | Sum.inl d => Except.ok d
            | Sum.inr f => f attempt
          match delay with
          | Except.error fault =>
              let c := cleanup h2 ErrorCode.UNKNOWN_ERROR (some fault)
              { handle := c.1, events := a.events ++ c.2, exited := true,
                stalled := false, created := true, sleptDelay := none }
          | Except.ok d =>
              if closeDuringSleep then
                let uc := close h2 none "" true
                let c := cleanup uc.handle ErrorCode.UNKNOWN_ERROR none
                { handle := c.1, events := a.events ++ uc.events ++ c.2,
                  exited := true, stalled := false, created := true,
                  sleptDelay := none }
              else
                { handle := h2, events := a.events, exited := false,
                  stalled := false, created := true, sleptDelay := some d }

/-- Outcome of running the loop on a finite script of iteration
inputs: `exited = true` means the `while` loop (or its catch handler)
returned; otherwise the loop is still running (or stalled on an
unresolved attempt).  `creations` counts the sockets created. -/
structure LoopResult where
  handle : Handle
  events : List Event
  exited : Bool
  creations : Nat

/-- Method `_runLoop` (source lines 279-301) run on a finite script of
iteration inputs: iterate `runIter` until an iteration exits or
stalls; remaining inputs are never consumed after an exit. -/
def runLoop (cfg : Config) (h : Handle) : List IterInput → LoopResult
  | [] => { handle := h, events := [], exited := false, creations := 0 }
  | inp :: rest =>
      let r := runIter cfg h inp
      if r.exited ∨ r.stalled then
        { handle := r.handle, events := r.events, exited := r.exited,
          creations := if r.created then 1 else 0 }
      else
        let r2 := runLoop cfg r.handle rest
        { handle := r2.handle, events := r.events ++ r2.events,
          exited := r2.exited,
          creations := (if r.created then 1 else 0) + r2.creations }

/-- Underlying socket as seen by `createSocketWithTimeout`: its ready
state and the log of `close(code, reason)` calls made on it. -/
structure TSock where
  readyState : ReadyState
  closeCalls : List (Nat × String)
  deriving DecidableEq, Repr

/-- Per-attempt timeout state: whether the connect-timeout timer is
pending, and the socket. -/
structure TAttempt where
  timerArmed : Bool
  sock : TSock
  deriving DecidableEq, Repr

/-- Function `createSocketWithTimeout(socketFactory, timeout)` (source
lines 553-577): the fresh socket starts `CONNECTING`; a timer is set
exactly when `timeout` is not `null`. -/
def createSocketWithTimeout (timeout : Option Nat) : TAttempt :=
  { timerArmed := timeout.isSome,
    sock := { readyState := ReadyState.CONNECTING, closeCalls := [] } }

/-- Events affecting one timed attempt: the timer firing, or the
socket emitting `open` / `error` / `close`. -/
inductive TEv
  | timerFires
  | openEv
  | errorEv
  | closeEv (info : CloseInfo)
  deriving Repr

/-- Step of the timeout machinery (source lines 557-574).  The timer
callback records whether the socket was `CONNECTING`, calls
`socket.close(3008, "Timeout")`, and when it was `CONNECTING`
dispatches a synthetic `CloseEvent(3008, "Timeout", wasClean=false)`.
Each of `open`/`close`/`error` clears the timer via the `once`
cleanup listeners.  The second component is the close notifications
the lifecycle awaiter observes from this event. -/
def taStep (a : TAttempt) : TEv → TAttempt × List CloseInfo
  | TEv.timerFires =>
      if a.timerArmed = false then (a, [])
      else
        let wasConnecting := a.sock.readyState = ReadyState.CONNECTING
        let sock2 : TSock :=
          { readyState := closeRS a.sock.readyState,
            closeCalls := a.sock.closeCalls ++ [(3008, "Timeout")] }
        ({ timerArmed := false, sock := sock2 },
         if wasConnecting then
           [{ code := 3008, reason := "Timeout", wasClean := false }]
         else [])
  | TEv.openEv =>
      ({ timerArmed := false,
         sock := { a.sock with readyState := ReadyState.OPEN } }, [])
  | TEv.errorEv =>
      ({ a with timerArmed := false }, [])
  | TEv.closeEv info =>
      ({ timerArmed := false,
         sock := { a.sock with readyState := ReadyState.CLOSED } }, [info])

/-- Options object with every field absent (`new ReconnectingWebSocket(url)`
with no options). -/
def noOptions : Options :=
  { maxRetries := none, connectionTimeout := none, reconnectionDelay := none }

/-- Whether a public event is the custom `terminate` event. -/
def Event.isTerminate : Event → Bool
  | Event.terminate _ => true
  | _ => false

/-- Number of `terminate` events in a dispatched event list. -/
def countTerm (evs : List Event) : Nat :=
  evs.countP Event.isTerminate

/-- Consistency of the `AbortController` signal: the `aborted` flag is
set exactly when an abort `reason` is recorded.  Holds for the fresh
controller and is preserved by `abort(reason)`. -/
def Inv (h : Handle) : Prop :=
  h.aborted = h.abortReason.isSome

/-- Public operations an application (or the background loop) can
perform on a handle. -/
inductive Op
  | closeOp (code : Option Nat) (reason : String) (permanently : Bool)
  | sendOp (data : String)
  | iterOp (cfg : Config) (inp : IterInput)

/-- Apply one operation to the handle state. -/
def applyOp (h : Handle) : Op → Handle
  | Op.closeOp c r p => (close h c r p).handle
  | Op.sendOp d => (send h d).1
  | Op.iterOp cfg i => (runIter cfg h i).handle

/-- Apply a sequence of operations in order. -/
def applyOps (h : Handle) : List Op → Handle
  | [] => h
  | op :: rest => applyOps (applyOp h op) rest

/-- Handle state reached from the constructor state by a sequence of
operations. -/
def reach (ops : List Op) : Handle :=
  applyOps initialHandle ops

/-- Run a sequence of `_cleanup` calls on the handle, collecting all
dispatched events. -/
def cleanups (h : Handle) : List (ErrorCode × Option String) → Handle × List Event
  | [] => (h, [])
  | c :: rest =>
      let r := cleanup h c.1 c.2
      let r2 := cleanups r.1 rest
      (r2.1, r.2 ++ r2.2)

/-- Run a sequence of open-transition flushes (one per reconnection),
collecting all payloads handed to `socket.send` across them. -/
def runFlushes (h : Handle) : List (Nat → Bool) → Handle × List String
  | [] => (h, [])
  | ok :: rest =>
      let r := handleOpen ok h
      let r2 := runFlushes r.1 rest
      (r2.1, r.2.2 ++ r2.2)

/-- One loop iteration against an endpoint whose connection attempt
ends in a close without ever opening. -/
def alwaysFailAttempt : IterInput :=
  IterInput.attempt [SockNotif.closed { code := 1006, reason := "", wasClean := false }] false

/-! Basic lemmas about the primitive state transformers. -/

theorem closeRS_idem (s : ReadyState) : closeRS (closeRS s) = closeRS s := by
  cases s <;> rfl

theorem closeRS_ne_connecting (s : ReadyState) :
    closeRS s ≠ ReadyState.CONNECTING := by
  cases s <;> simp [closeRS]

theorem cleanup_frozen (h : Handle) (c : ErrorCode) (f : Option String)
    (ha : h.aborted = true) : cleanup h c f = (h, []) := by
  simp [cleanup, Handle.isTerminated, ha]

theorem cleanup_set (h : Handle) (c : ErrorCode) (f : Option String)
    (ha : h.aborted = false) :
    cleanup h c f =
      ({ h with aborted := true, abortReason := some { code := c, cause := f },
                socketState := closeRS h.socketState, messageBuffer := [] },
       [Event.terminate { code := c, cause := f }]) := by
  simp [cleanup, Handle.isTerminated, ha]

theorem cleanup_aborted (h : Handle) (c : ErrorCode) (f : Option String) :
    (cleanup h c f).1.aborted = true := by
  cases ha : h.aborted
  · rw [cleanup_set h c f ha]
  · rw [cleanup_frozen h c f ha]; exact ha

theorem cleanup_Inv (h : Handle) (c : ErrorCode) (f : Option String)
    (hi : Inv h) : Inv (cleanup h c f).1 := by
  cases ha : h.aborted
  · rw [cleanup_set h c f ha]; simp [Inv]
  · rw [cleanup_frozen h c f ha]; exact hi

theorem handleOpen_aborted (ok : Nat → Bool) (h : Handle) :
    (handleOpen ok h).1.aborted = h.aborted := by
  unfold handleOpen
  cases hr : (flushFrom ok 0 h.messageBuffer).2 <;> simp [hr]

theorem handleOpen_reason (ok : Nat → Bool) (h : Handle) :
    (handleOpen ok h).1.abortReason = h.abortReason := by
  unfold handleOpen
  cases hr : (flushFrom ok 0 h.messageBuffer).2 <;> simp [hr]

theorem close_frozen (h : Handle) (c : Option Nat) (r : String) (p : Bool)
    (ha : h.aborted = true) :
    (close h c r p).handle.aborted = true
    ∧ (close h c r p).handle.abortReason = h.abortReason := by
  cases p <;> simp [close, cleanup, Handle.isTerminated, ha]

theorem close_perm_aborted (h : Handle) (c : Option Nat) (r : String) :
    (close h c r true).handle.aborted = true := by
  cases ha : h.aborted <;> simp [close, cleanup, Handle.isTerminated, ha]

theorem close_Inv (h : Handle) (c : Option Nat) (r : String) (p : Bool)
    (hi : Inv h) : Inv (close h c r p).handle := by
  cases p
  · simpa [close, Inv] using hi
  · cases ha : h.aborted
    · simp [close, cleanup, Handle.isTerminated, ha, Inv]
    · simp [close, cleanup, Handle.isTerminated, ha, Inv]
      simpa [Inv, ha] using hi

theorem send_fields (h : Handle) (d : String) :
    (send h d).1.aborted = h.aborted
    ∧ (send h d).1.abortReason = h.abortReason := by
  unfold send
  split <;> simp

theorem send_Inv (h : Handle) (d : String) (hi : Inv h) : Inv (send h d).1 := by
  have := send_fields h d
  simp [Inv, this.1, this.2]
  exact hi

/-! Lemmas about the lifecycle awaiter and the loop. -/

theorem processNotifs_frozen (l : List SockNotif) :
    ∀ h : Handle, h.aborted = true →
      (processNotifs h l).handle.aborted = true
      ∧ (processNotifs h l).handle.abortReason = h.abortReason := by
  induction l with
  | nil => intro h ha; exact ⟨ha, rfl⟩
  | cons n rest ih =>
      intro h ha
      cases n with
      | opened ok =>
          have h1 := handleOpen_aborted ok h
          have h2 := handleOpen_reason ok h
          have := ih (handleOpen ok h).1 (by rw [h1]; exact ha)
          simp only [processNotifs]
          exact ⟨this.1, by rw [this.2, h2]⟩
      | message d =>
          simpa only [processNotifs] using ih h ha
      | error =>
          simpa only [processNotifs] using ih h ha
      | userClose c r p =>
          have hc := close_frozen h c r p ha
          simp only [processNotifs]
          cases hs : (close h c r p).synthetic with
          | some info =>
              simp only [hs]
              exact hc
          | none =>
              simp only [hs]
              have := ih (close h c r p).handle hc.1
              exact ⟨this.1, by rw [this.2, hc.2]⟩
      | closed info =>
          constructor <;> simp [processNotifs, ha]

theorem processNotifs_Inv (l : List SockNotif) :
    ∀ h : Handle, Inv h → Inv (processNotifs h l).handle := by
  induction l with
  | nil => intro h hi; exact hi
  | cons n rest ih =>
      intro h hi
      cases n with
      | opened ok =>
          refine ih (handleOpen ok h).1 ?_
          simp [Inv, handleOpen_aborted, handleOpen_reason]
          exact hi
      | message d => exact ih h hi
      | error => exact ih h hi
      | userClose c r p =>
          have hc := close_Inv h c r p hi
          simp only [processNotifs]
          cases hs : (close h c r p).synthetic with
          | some info => simp only [hs]; exact hc
          | none => simp only [hs]; exact ih _ hc
      | closed info =>
          simpa only [processNotifs, Inv] using hi

theorem runIter_Inv (cfg : Config) (h : Handle) (i : IterInput) (hi : Inv h) :
    Inv (runIter cfg h i).handle := by
  cases i with
  | createThrows fault =>
      simp only [runIter]
      exact cleanup_Inv _ _ _ hi
  | attempt script b =>
      have hp : Inv (processNotifs { h with socketState := ReadyState.CONNECTING } script).handle :=
        processNotifs_Inv script _ (by simpa [Inv] using hi)
      simp only [runIter]
      split
      · exact hp
      · split
        · exact hp
        · split
          · exact cleanup_Inv _ _ _ hp
          · split
            · exact cleanup_Inv _ _ _ (by simpa [Inv] using hp)
            · split
              · exact cleanup_Inv _ _ _ (close_Inv _ _ _ _ (by simpa [Inv] using hp))
              · simpa [Inv] using hp

theorem runIter_exit_aborted (cfg : Config) (h : Handle) (i : IterInput)
    (he : (runIter cfg h i).exited = true) :
    (runIter cfg h i).handle.aborted = true := by
  obtain ⟨mr, ct, rd⟩ := cfg
  cases i with
  | createThrows fault =>
      simp only [runIter]
      exact cleanup_aborted _ _ _
  | attempt script b =>
      simp only [runIter] at he ⊢
      generalize processNotifs { h with socketState := ReadyState.CONNECTING } script = a at he ⊢
      by_cases h1 : a.resolved = false
      · rw [if_pos h1] at he
        simp at he
      · rw [if_neg h1] at he ⊢
        by_cases h2 : a.handle.isTerminated = true
        · rw [if_pos h2] at he ⊢
          exact h2
        · rw [if_neg h2] at he ⊢
          by_cases h3 : mr ≤ a.handle.attempt
          · rw [if_pos h3] at he ⊢
            exact cleanup_aborted _ _ _
          · rw [if_neg h3] at he ⊢
            rcases rd with d | f
            · cases b
              · simp at he
              · exact cleanup_aborted _ _ _
            · cases hf : f a.handle.attempt with
              | error fault =>
                  simp only [hf] at he ⊢
                  exact cleanup_aborted _ _ _
              | ok d =>
                  simp only [hf] at he ⊢
                  cases b
                  · simp at he
                  · exact cleanup_aborted _ _ _

theorem runIter_frozen (cfg : Config) (h : Handle) (i : IterInput)
    (ha : h.aborted = true) :
    (runIter cfg h i).handle.aborted = true
    ∧ (runIter cfg h i).handle.abortReason = h.abortReason := by
  cases i with
  | createThrows fault =>
      simp only [runIter]
      rw [cleanup_frozen _ _ _ ha]
      exact ⟨ha, rfl⟩
  | attempt script b =>
      have hp := processNotifs_frozen script { h with socketState := ReadyState.CONNECTING } ha
      simp only [runIter]
      by_cases h1 : (processNotifs { h with socketState := ReadyState.CONNECTING } script).resolved = false
      · rw [if_pos h1]
        exact hp
      · rw [if_neg h1]
        rw [if_pos (show (processNotifs { h with socketState := ReadyState.CONNECTING } script).handle.isTerminated = true from hp.1)]
        exact hp

theorem runLoop_exit_aborted (cfg : Config) :
    ∀ (inputs : List IterInput) (h : Handle),
      (runLoop cfg h inputs).exited = true →
      (runLoop cfg h inputs).handle.aborted = true := by
  intro inputs
  induction inputs with
  | nil => intro h he; simp [runLoop] at he
  | cons inp rest ih =>
      intro h he
      simp only [runLoop] at he ⊢
      by_cases hc : (runIter cfg h inp).exited = true ∨ (runIter cfg h inp).stalled = true
      · rw [if_pos hc] at he ⊢
        exact runIter_exit_aborted cfg h inp he
      · rw [if_neg hc] at he ⊢
        exact ih (runIter cfg h inp).handle he

theorem runLoop_Inv (cfg : Config) :
    ∀ (inputs : List IterInput) (h : Handle),
      Inv h → Inv (runLoop cfg h inputs).handle := by
  intro inputs
  induction inputs with
  | nil => intro h hi; exact hi
  | cons inp rest ih =>
      intro h hi
      simp only [runLoop]
      by_cases hc : (runIter cfg h inp).exited = true ∨ (runIter cfg h inp).stalled = true
      · rw [if_pos hc]
        exact runIter_Inv cfg h inp hi
      · rw [if_neg hc]
        exact ih (runIter cfg h inp).handle (runIter_Inv cfg h inp hi)

/-! Lemmas about operation traces. -/

theorem applyOp_frozen (h : Handle) (op : Op) (ha : h.aborted = true) :
    (applyOp h op).aborted = true ∧ (applyOp h op).abortReason = h.abortReason := by
  cases op with
  | closeOp c r p => exact close_frozen h c r p ha
  | sendOp d =>
      refine ⟨?_, (send_fields h d).2⟩
      show (send h d).1.aborted = true
      rw [(send_fields h d).1]
      exact ha
  | iterOp cfg i => exact runIter_frozen cfg h i ha

theorem applyOp_Inv (h : Handle) (op : Op) (hi : Inv h) : Inv (applyOp h op) := by
  cases op with
  | closeOp c r p => exact close_Inv h c r p hi
  | sendOp d => exact send_Inv h d hi
  | iterOp cfg i => exact runIter_Inv cfg h i hi

theorem applyOps_frozen (ops : List Op) :
    ∀ h : Handle, h.aborted = true →
      (applyOps h ops).aborted = true ∧ (applyOps h ops).abortReason = h.abortReason := by
  induction ops with
  | nil => intro h ha; exact ⟨ha, rfl⟩
  | cons op rest ih =>
      intro h ha
      have h1 := applyOp_frozen h op ha
      have h2 := ih (applyOp h op) h1.1
      simp only [applyOps]
      exact ⟨h2.1, by rw [h2.2, h1.2]⟩

theorem applyOps_Inv (ops : List Op) :
    ∀ h : Handle, Inv h → Inv (applyOps h ops) := by
  induction ops with
  | nil => intro h hi; exact hi
  | cons op rest ih => intro h hi; exact ih (applyOp h op) (applyOp_Inv h op hi)

theorem applyOps_append (l1 l2 : List Op) :
    ∀ h : Handle, applyOps h (l1 ++ l2) = applyOps (applyOps h l1) l2 := by
  induction l1 with
  | nil => intro h; rfl
  | cons op rest ih => intro h; exact ih (applyOp h op)

theorem reach_Inv (ops : List Op) : Inv (reach ops) :=
  applyOps_Inv ops initialHandle rfl

/-! Lemmas about sequences of cleanup calls. -/

theorem cleanups_frozen (calls : List (ErrorCode × Option String)) :
    ∀ h : Handle, h.aborted = true → cleanups h calls = (h, []) := by
  induction calls with
  | nil => intro h _; rfl
  | cons c rest ih =>
      intro h ha
      simp only [cleanups]
      rw [cleanup_frozen h c.1 c.2 ha]
      simp [ih h ha]

theorem cleanups_first (h : Handle) (c : ErrorCode) (f : Option String)
    (calls : List (ErrorCode × Option String)) (ha : h.aborted = false) :
    cleanups h ((c, f) :: calls)
      = ({ h with aborted := true, abortReason := some { code := c, cause := f },
                  socketState := closeRS h.socketState, messageBuffer := [] },
         [Event.terminate { code := c, cause := f }]) := by
  simp only [cleanups]
  rw [cleanup_set h c f ha]
  rw [cleanups_frozen calls _ rfl]
  simp

/-! Specification of the flush loop. -/

theorem flushFrom_true (sendOk : Nat → Bool) :
    ∀ (l : List String) (c : Nat),
      (flushFrom sendOk c l).2 = true → flushFrom sendOk c l = (c + l.length, true) := by
  intro l
  induction l with
  | nil => intro c _; simp [flushFrom]
  | cons m rest ih =>
      intro c hf
      simp only [flushFrom] at hf ⊢
      by_cases hc : sendOk c = true
      · rw [if_pos hc] at hf ⊢
        rw [ih (c + 1) hf]
        simp
        omega
      · rw [if_neg hc] at hf
        simp at hf

theorem flushFrom_false (sendOk : Nat → Bool) :
    ∀ (l : List String) (c : Nat),
      (flushFrom sendOk c l).2 = false →
        c ≤ (flushFrom sendOk c l).1
        ∧ (flushFrom sendOk c l).1 < c + l.length
        ∧ sendOk (flushFrom sendOk c l).1 = false
        ∧ ∀ i, c ≤ i → i < (flushFrom sendOk c l).1 → sendOk i = true := by
  intro l
  induction l with
  | nil => intro c hf; simp [flushFrom] at hf
  | cons m rest ih =>
      intro c hf
      simp only [flushFrom] at hf ⊢
      by_cases hc : sendOk c = true
      · rw [if_pos hc] at hf ⊢
        obtain ⟨ih1, ih2, ih3, ih4⟩ := ih (c + 1) hf
        refine ⟨by omega, by simp; omega, ih3, ?_⟩
        intro i hi1 hi2
        by_cases hic : i = c
        · rw [hic]; exact hc
        · exact ih4 i (by omega) hi2
      · rw [if_neg hc] at hf ⊢
        simp only
        refine ⟨le_refl c, by simp, by simpa using hc, ?_⟩
        intro i hi1 hi2
        omega

theorem handleOpen_conserve (sendOk : Nat → Bool) (h : Handle) :
    (handleOpen sendOk h).2.2 ++ (handleOpen sendOk h).1.messageBuffer = h.messageBuffer := by
  unfold handleOpen
  cases hr : (flushFrom sendOk 0 h.messageBuffer).2
  · simp [hr, List.take_append_drop]
  · simp [hr]

theorem runFlushes_conserve (oks : List (Nat → Bool)) :
    ∀ h : Handle,
      (runFlushes h oks).2 ++ (runFlushes h oks).1.messageBuffer = h.messageBuffer := by
  induction oks with
  | nil => intro h; rfl
  | cons ok rest ih =>
      intro h
      simp only [runFlushes, List.append_assoc]
      rw [ih (handleOpen ok h).1]
      exact handleOpen_conserve ok h

/-! Claim theorems. -/

/-- C8: the default reconnection delay policy is exactly
`delay(attempt) = min(2 ^ attempt * 150, 10000)`; the other
configuration defaults are `maxRetries = 3` and
`connectionTimeout = 10000`; and the delay slept after the close of an
attempt is computed from the attempt counter's value captured before
the increment (the new counter value is one more, yet the delay
function receives the old value). -/
theorem claim_C8_delay_policy_and_defaults :
    (∀ n, defaultReconnectionDelay n = min (2 ^ n * 150) 10000)
    ∧ (resolveOptions noOptions).maxRetries = 3
    ∧ (resolveOptions noOptions).connectionTimeout = some 10000
    ∧ (resolveOptions noOptions).reconnectionDelay
        = Sum.inr (fun n => Except.ok (min (2 ^ n * 150) 10000))
    ∧ (∀ (cfg : Config) (h : Handle) (f : Nat → Except String Nat) (d : Nat)
          (info : CloseInfo),
        cfg.reconnectionDelay = Sum.inr f →
        h.isTerminated = false →
        h.attempt < cfg.maxRetries →
        f h.attempt = Except.ok d →
        (runIter cfg h (IterInput.attempt [SockNotif.closed info] false)).sleptDelay
            = some d
        ∧ (runIter cfg h (IterInput.attempt [SockNotif.closed info] false)).handle.attempt
            = h.attempt + 1) := by
  refine ⟨fun n => rfl, rfl, rfl, rfl, ?_⟩
  intro cfg h f d info hrd ht hlt hf
  have ha : h.aborted = false := by simpa [Handle.isTerminated] using ht
  constructor <;>
    simp [runIter, processNotifs, Handle.isTerminated, ha,
          Nat.not_le.mpr hlt, hrd, hf]

/-- Witness for C8: with a delay function returning `attempt + 5` and
the counter at 0, the slept delay is 5 (computed from the value 0
captured before the increment) and the counter afterwards is 1. -/
theorem claim_C8_delay_policy_and_defaults_witness :
    (runIter { maxRetries := 3, connectionTimeout := none,
               reconnectionDelay := Sum.inr (fun n => Except.ok (n + 5)) }
        initialHandle
        (IterInput.attempt
          [SockNotif.closed { code := 1000, reason := "", wasClean := true }]
          false)).sleptDelay = some 5
    ∧ (runIter { maxRetries := 3, connectionTimeout := none,
                 reconnectionDelay := Sum.inr (fun n => Except.ok (n + 5)) }
        initialHandle
        (IterInput.attempt
          [SockNotif.closed { code := 1000, reason := "", wasClean := true }]
          false)).handle.attempt = 1 :=
  claim_C8_delay_policy_and_defaults.2.2.2.2 _ initialHandle
    (fun n => Except.ok (n + 5)) 5 _ rfl rfl (by decide) rfl

/-- C6: `send(payload)` forwards immediately when the socket is open
and the handle is not terminated; buffers when the socket is not open
and the handle is not terminated; and when the handle is terminated it
bypasses the buffer and forwards directly to the (dead) socket
regardless of its state — nothing is queued after termination. -/
theorem claim_C6_send_cases :
    ∀ (h : Handle) (data : String),
      (h.socketState = ReadyState.OPEN → h.isTerminated = false →
        send h data = (h, some data))
      ∧ (h.socketState ≠ ReadyState.OPEN → h.isTerminated = false →
          send h data
            = ({ h with messageBuffer := h.messageBuffer ++ [data] }, none))
      ∧ (h.isTerminated = true → send h data = (h, some data)) := by
  intro h data
  refine ⟨?_, ?_, ?_⟩
  · intro h1 h2
    simp [send, h1]
  · intro h1 h2
    simp [send, h1, h2]
  · intro h1
    simp [send, h1]

/-- Witness for C6: forwarding when open, buffering when connecting,
and direct forwarding on a terminated handle with a closed socket. -/
theorem claim_C6_send_cases_witness :
    send { attempt := 0, messageBuffer := [], socketState := ReadyState.OPEN,
           aborted := false, abortReason := none } "a"
      = ({ attempt := 0, messageBuffer := [], socketState := ReadyState.OPEN,
           aborted := false, abortReason := none }, some "a")
    ∧ send initialHandle "b"
      = ({ attempt := 0, messageBuffer := ["b"],
           socketState := ReadyState.CONNECTING,
           aborted := false, abortReason := none }, none)
    ∧ send { attempt := 0, messageBuffer := [],
             socketState := ReadyState.CLOSED, aborted := true,
             abortReason := some { code := ErrorCode.TERMINATED_BY_USER,
                                   cause := none } } "c"
      = ({ attempt := 0, messageBuffer := [],
           socketState := ReadyState.CLOSED, aborted := true,
           abortReason := some { code := ErrorCode.TERMINATED_BY_USER,
                                 cause := none } }, some "c") :=
  ⟨(claim_C6_send_cases _ "a").1 rfl rfl,
   (claim_C6_send_cases initialHandle "b").2.1 (by decide) rfl,
   (claim_C6_send_cases _ "c").2.2 rfl⟩

/-- C10: a `close(code, reason, permanently)` call while the
underlying socket is still `CONNECTING` dispatches a synthetic socket
close event with fixed code 1006, empty reason and `wasClean = false`,
for every caller-supplied code and reason; the public close event the
lifecycle awaiter then emits carries exactly that fixed payload, not
the caller's arguments, and the awaiter resolves. -/
theorem claim_C10_close_while_connecting :
    ∀ (h : Handle) (code : Option Nat) (reason : String) (perm : Bool)
      (rest : List SockNotif),
      h.socketState = ReadyState.CONNECTING →
      (close h code reason perm).synthetic
          = some { code := 1006, reason := "", wasClean := false }
      ∧ (processNotifs h (SockNotif.userClose code reason perm :: rest)).events
          = (close h code reason perm).events
            ++ [Event.closeE { code := 1006, reason := "", wasClean := false }]
      ∧ (processNotifs h (SockNotif.userClose code reason perm :: rest)).resolved
          = true := by
  intro h code reason perm rest hc
  have hs : (close h code reason perm).synthetic
      = some { code := 1006, reason := "", wasClean := false } := by
    simp [close, hc]
  refine ⟨hs, ?_, ?_⟩ <;> simp [processNotifs, hs]

/-- Witness for C10: a non-permanent close with code 4000 and reason
"bye" issued while connecting yields the fixed synthetic 1006 close. -/
theorem claim_C10_close_while_connecting_witness :
    (close initialHandle (some 4000) "bye" false).synthetic
        = some { code := 1006, reason := "", wasClean := false }
    ∧ (processNotifs initialHandle
        [SockNotif.userClose (some 4000) "bye" false]).events
        = [Event.closeE { code := 1006, reason := "", wasClean := false }] := by
  have := claim_C10_close_while_connecting initialHandle (some 4000) "bye" false [] rfl
  exact ⟨this.1, by rw [this.2.1]; rfl⟩

/-- C7: with the connect-timeout disabled no timer is attached (and a
timer event is a no-op); when the timeout fires while the socket is
still `CONNECTING` the socket is force-closed with the distinguished
code 3008 and a close notification with that code is synthesized, so
the lifecycle awaiter receives a close event for the attempt; and the
timer is cancelled as soon as the attempt emits `open`, `close` or
`error`. -/
theorem claim_C7_connect_timeout :
    ((createSocketWithTimeout none).timerArmed = false)
    ∧ (∀ t : Nat, (createSocketWithTimeout (some t)).timerArmed = true)
    ∧ (∀ a : TAttempt, a.timerArmed = false →
        taStep a TEv.timerFires = (a, []))
    ∧ (∀ a : TAttempt, a.timerArmed = true →
        a.sock.readyState = ReadyState.CONNECTING →
        taStep a TEv.timerFires
          = ({ timerArmed := false,
               sock := { readyState := ReadyState.CLOSING,
                         closeCalls := a.sock.closeCalls ++ [(3008, "Timeout")] } },
             [{ code := 3008, reason := "Timeout", wasClean := false }]))
    ∧ (∀ (a : TAttempt) (info : CloseInfo),
        (taStep a TEv.openEv).1.timerArmed = false
        ∧ (taStep a TEv.errorEv).1.timerArmed = false
        ∧ (taStep a (TEv.closeEv info)).1.timerArmed = false) := by
  refine ⟨rfl, fun t => rfl, ?_, ?_, ?_⟩
  · intro a ha
    simp [taStep, ha]
  · intro a ha hc
    simp [taStep, ha, hc, closeRS]
  · intro a info
    exact ⟨rfl, rfl, rfl⟩

/-- Witness for C7: a disabled-timeout attempt ignores a timer event,
and an armed timer firing while connecting closes with 3008 and
synthesizes the 3008 close notification. -/
theorem claim_C7_connect_timeout_witness :
    taStep (createSocketWithTimeout none) TEv.timerFires
      = (createSocketWithTimeout none, [])
    ∧ taStep (createSocketWithTimeout (some 10)) TEv.timerFires
      = ({ timerArmed := false,
           sock := { readyState := ReadyState.CLOSING,
                     closeCalls := [(3008, "Timeout")] } },
         [{ code := 3008, reason := "Timeout", wasClean := false }]) := by
  constructor
  · exact claim_C7_connect_timeout.2.2.1 _ rfl
  · have := claim_C7_connect_timeout.2.2.2.1 (createSocketWithTimeout (some 10)) rfl rfl
    simpa [createSocketWithTimeout] using this

/-- C3: the open-transition flush sends buffered messages in FIFO
order; when the send of entry `k` fails, exactly the successfully sent
entries `0..k-1` are removed (the new buffer is the suffix from `k`),
the socket is force-closed and no public open event is emitted; when
every entry sends, the buffer is cleared and exactly one public open
event is emitted; and across any number of flushes the concatenation
of all sent payloads with the remaining buffer is the original buffer
— no message is lost, duplicated or reordered. -/
theorem claim_C3_flush_fifo_partial_failure :
    (∀ (sendOk : Nat → Bool) (h : Handle) (k : Nat),
        flushFrom sendOk 0 h.messageBuffer = (k, false) →
        (handleOpen sendOk h).1.messageBuffer = h.messageBuffer.drop k
        ∧ (handleOpen sendOk h).2.2 = h.messageBuffer.take k
        ∧ (handleOpen sendOk h).1.socketState = ReadyState.CLOSING
        ∧ (handleOpen sendOk h).2.1 = []
        ∧ k < h.messageBuffer.length
        ∧ sendOk k = false
        ∧ (∀ i, i < k → sendOk i = true))
    ∧ (∀ (sendOk : Nat → Bool) (h : Handle),
        (flushFrom sendOk 0 h.messageBuffer).2 = true →
        (handleOpen sendOk h).1.messageBuffer = []
        ∧ (handleOpen sendOk h).2.1 = [Event.opened]
        ∧ (handleOpen sendOk h).2.2 = h.messageBuffer)
    ∧ (∀ (sendOk : Nat → Bool) (h : Handle),
        (handleOpen sendOk h).2.2 ++ (handleOpen sendOk h).1.messageBuffer
          = h.messageBuffer)
    ∧ (∀ (h : Handle) (oks : List (Nat → Bool)),
        (runFlushes h oks).2 ++ (runFlushes h oks).1.messageBuffer
          = h.messageBuffer) := by
  refine ⟨?_, ?_, ?_, ?_⟩
  · intro sendOk h k hf
    have h2 : (flushFrom sendOk 0 h.messageBuffer).2 = false := by rw [hf]
    have hb := flushFrom_false sendOk h.messageBuffer 0 h2
    rw [hf] at hb
    simp only [Nat.zero_add] at hb
    refine ⟨?_, ?_, ?_, ?_, hb.2.1, hb.2.2.1,
      fun i hi => hb.2.2.2 i (Nat.zero_le i) hi⟩
    all_goals simp [handleOpen, hf, h2, closeRS]
  · intro sendOk h hf
    refine ⟨?_, ?_, ?_⟩ <;> simp [handleOpen, hf]
  · intro sendOk h
    exact handleOpen_conserve sendOk h
  · intro h oks
    exact runFlushes_conserve oks h

/-- Witness for C3: flushing `["a", "b", "c"]` when the second send
fails removes only `"a"`, retains `["b", "c"]`, closes the socket and
emits no open event; flushing `["a"]` with all sends succeeding clears
the buffer and emits the open event. -/
theorem claim_C3_flush_fifo_partial_failure_witness :
    (handleOpen (fun i => decide (i < 1))
        { initialHandle with messageBuffer := ["a", "b", "c"] }).1.messageBuffer
      = ["b", "c"]
    ∧ (handleOpen (fun i => decide (i < 1))
        { initialHandle with messageBuffer := ["a", "b", "c"] }).2.2 = ["a"]
    ∧ (handleOpen (fun i => decide (i < 1))
        { initialHandle with messageBuffer := ["a", "b", "c"] }).2.1 = []
    ∧ (handleOpen (fun _ => true)
        { initialHandle with messageBuffer := ["a"] }).1.messageBuffer = []
    ∧ (handleOpen (fun _ => true)
        { initialHandle with messageBuffer := ["a"] }).2.1 = [Event.opened] := by
  have h1 := claim_C3_flush_fifo_partial_failure.1 (fun i => decide (i < 1))
    { initialHandle with messageBuffer := ["a", "b", "c"] } 1 rfl
  have h2 := claim_C3_flush_fifo_partial_failure.2.1 (fun _ => true)
    { initialHandle with messageBuffer := ["a"] } rfl
  exact ⟨h1.1, h1.2.1, h1.2.2.2.1, h2.1, h2.2.1⟩

/-- C5: termination is one-way and idempotent: `_cleanup` on a
terminated handle is a no-op; once terminated, no sequence of
operations changes the termination cause or un-terminates the handle;
the `terminate` event is dispatched at most once over any sequence of
cleanup calls (exactly once when starting non-terminated, by the very
cleanup call that decides termination); and a second `close()` after a
permanent close changes nothing and emits nothing. -/
theorem claim_C5_termination_one_way :
    (∀ (h : Handle) (c : ErrorCode) (f : Option String),
        h.isTerminated = true → cleanup h c f = (h, []))
    ∧ (∀ (h : Handle) (ops : List Op),
        h.isTerminated = true →
        (applyOps h ops).isTerminated = true
        ∧ (applyOps h ops).terminationReason = h.terminationReason)
    ∧ (∀ (h : Handle) (calls : List (ErrorCode × Option String)),
        countTerm (cleanups h calls).2 ≤ 1)
    ∧ (∀ (h : Handle) (c : ErrorCode) (f : Option String)
          (calls : List (ErrorCode × Option String)),
        h.isTerminated = false →
        (cleanups h ((c, f) :: calls)).1.terminationReason
            = some { code := c, cause := f }
        ∧ countTerm (cleanups h ((c, f) :: calls)).2 = 1)
    ∧ (∀ (h : Handle) (code code2 : Option Nat) (reason reason2 : String)
          (perm2 : Bool),
        close (close h code reason true).handle code2 reason2 perm2
          = { handle := (close h code reason true).handle, events := [],
              synthetic := none }) := by
  refine ⟨?_, ?_, ?_, ?_, ?_⟩
  · intro h c f ht
    exact cleanup_frozen h c f (by simpa [Handle.isTerminated] using ht)
  · intro h ops ht
    have := applyOps_frozen ops h (by simpa [Handle.isTerminated] using ht)
    exact ⟨by simpa [Handle.isTerminated] using this.1,
           by simpa [Handle.terminationReason] using this.2⟩
  · intro h calls
    cases ha : h.aborted
    · cases calls with
      | nil => simp [cleanups, countTerm]
      | cons c rest =>
          obtain ⟨c1, c2⟩ := c
          rw [cleanups_first h c1 c2 rest ha]
          simp [countTerm, Event.isTerminate]
    · rw [cleanups_frozen calls h ha]
      simp [countTerm]
  · intro h c f calls ht
    have ha : h.aborted = false := by simpa [Handle.isTerminated] using ht
    rw [cleanups_first h c f calls ha]
    constructor
    · rfl
    · simp [countTerm, Event.isTerminate]
  · intro h code code2 reason reason2 perm2
    have ha : (close h code reason true).handle.aborted = true :=
      close_perm_aborted h code reason
    have hs : closeRS (close h code reason true).handle.socketState
        = (close h code reason true).handle.socketState := by
      cases hb : h.aborted <;>
        simp [close, cleanup, Handle.isTerminated, hb, closeRS_idem]
    have hnc : ¬((close h code reason true).handle.socketState
        = ReadyState.CONNECTING) := by
      cases hb : h.aborted <;>
        · simp [close, cleanup, Handle.isTerminated, hb]
          exact closeRS_ne_connecting _
    generalize (close h code reason true).handle = r at ha hs hnc ⊢
    have heta : { r with socketState := closeRS r.socketState } = r := by
      rw [hs]
    have hcl := cleanup_frozen r ErrorCode.TERMINATED_BY_USER none ha
    cases perm2 <;> simp [close, hnc, hcl, heta]

/-- Witness for C5: cleanup and arbitrary operations on a handle
terminated by a permanent close leave it terminated with the same
reason and dispatch nothing; a first cleanup from the constructor
state records its code and dispatches exactly one terminate event. -/
theorem claim_C5_termination_one_way_witness :
    cleanup (close initialHandle none "" true).handle
        ErrorCode.RECONNECTION_LIMIT none
      = ((close initialHandle none "" true).handle, [])
    ∧ (applyOps (close initialHandle none "" true).handle
          [Op.sendOp "x", Op.closeOp (some 1000) "y" true]).terminationReason
      = (close initialHandle none "" true).handle.terminationReason
    ∧ (cleanups initialHandle
          [(ErrorCode.UNKNOWN_ERROR, some "boom"),
           (ErrorCode.RECONNECTION_LIMIT, none)]).1.terminationReason
      = some { code := ErrorCode.UNKNOWN_ERROR, cause := some "boom" }
    ∧ countTerm (cleanups initialHandle
          [(ErrorCode.UNKNOWN_ERROR, some "boom"),
           (ErrorCode.RECONNECTION_LIMIT, none)]).2 = 1 := by
  refine ⟨?_, ?_, ?_, ?_⟩
  · exact claim_C5_termination_one_way.1 _ ErrorCode.RECONNECTION_LIMIT none
      (by decide)
  · exact (claim_C5_termination_one_way.2.1 _
      [Op.sendOp "x", Op.closeOp (some 1000) "y" true] (by decide)).2
  · exact (claim_C5_termination_one_way.2.2.2.1 initialHandle
      ErrorCode.UNKNOWN_ERROR (some "boom")
      [(ErrorCode.RECONNECTION_LIMIT, none)] rfl).1
  · exact (claim_C5_termination_one_way.2.2.2.1 initialHandle
      ErrorCode.UNKNOWN_ERROR (some "boom")
      [(ErrorCode.RECONNECTION_LIMIT, none)] rfl).2

/-- C9: the introspection accessors are mutually consistent on every
reachable handle state: `isTerminated` equals `terminationSignal`'s
aborted flag by definition, and it is `true` exactly when
`terminationReason` is defined; the reason recorded by the cleanup
that first terminates the handle carries that cleanup's code, and no
later operation ever changes it. -/
theorem claim_C9_introspection_consistency :
    (∀ ops : List Op,
        (reach ops).isTerminated = ((reach ops).terminationReason).isSome)
    ∧ (∀ (h : Handle) (c : ErrorCode) (f : Option String),
        h.isTerminated = false →
        (cleanup h c f).1.terminationReason = some { code := c, cause := f }
        ∧ (cleanup h c f).1.isTerminated = true)
    ∧ (∀ (ops more : List Op),
        (reach ops).isTerminated = true →
        (reach (ops ++ more)).terminationReason = (reach ops).terminationReason
        ∧ (reach (ops ++ more)).isTerminated = true) := by
  refine ⟨?_, ?_, ?_⟩
  · intro ops
    exact reach_Inv ops
  · intro h c f ht
    rw [cleanup_set h c f (by simpa [Handle.isTerminated] using ht)]
    exact ⟨rfl, rfl⟩
  · intro ops more ht
    simp only [reach, applyOps_append]
    have := applyOps_frozen more (reach ops)
      (by simpa [Handle.isTerminated] using ht)
    exact ⟨this.2, this.1⟩

/-- Witness for C9: the accessors agree on the state reached by a
send, a permanent close and another send; the first cleanup records
its code; and appending operations preserves the reason. -/
theorem claim_C9_introspection_consistency_witness :
    (reach [Op.sendOp "a", Op.closeOp none "" true, Op.sendOp "b"]).isTerminated
      = ((reach [Op.sendOp "a", Op.closeOp none "" true,
          Op.sendOp "b"]).terminationReason).isSome
    ∧ (cleanup initialHandle ErrorCode.RECONNECTION_LIMIT none).1.terminationReason
      = some { code := ErrorCode.RECONNECTION_LIMIT, cause := none }
    ∧ (reach ([Op.closeOp none "" true] ++ [Op.sendOp "b"])).terminationReason
      = (reach [Op.closeOp none "" true]).terminationReason := by
  refine ⟨?_, ?_, ?_⟩
  · exact claim_C9_introspection_consistency.1 _
  · exact (claim_C9_introspection_consistency.2.1 initialHandle
      ErrorCode.RECONNECTION_LIMIT none rfl).1
  · exact (claim_C9_introspection_consistency.2.2 [Op.closeOp none "" true]
      [Op.sendOp "b"] (by decide)).1

/-- C2: with `maxRetries = 2`, zero reconnection delay and every
attempt ending in a close without a sustained open, the handle emits
exactly 3 public close events (the initial attempt plus 2 retries)
followed by exactly 1 terminate event with cause `RECONNECTION_LIMIT`;
the loop exits terminated and makes exactly 3 connection attempts no
matter how much further input the environment supplies. -/
theorem claim_C2_retry_limit_scenario :
    ∀ extra : List IterInput,
      (runLoop { maxRetries := 2, connectionTimeout := some 10000,
                 reconnectionDelay := Sum.inl 0 } initialHandle
          (alwaysFailAttempt :: alwaysFailAttempt :: alwaysFailAttempt :: extra)).events
        = [Event.closeE { code := 1006, reason := "", wasClean := false },
           Event.closeE { code := 1006, reason := "", wasClean := false },
           Event.closeE { code := 1006, reason := "", wasClean := false },
           Event.terminate { code := ErrorCode.RECONNECTION_LIMIT, cause := none }]
      ∧ (runLoop { maxRetries := 2, connectionTimeout := some 10000,
                   reconnectionDelay := Sum.inl 0 } initialHandle
          (alwaysFailAttempt :: alwaysFailAttempt :: alwaysFailAttempt :: extra)).creations
        = 3
      ∧ (runLoop { maxRetries := 2, connectionTimeout := some 10000,
                   reconnectionDelay := Sum.inl 0 } initialHandle
          (alwaysFailAttempt :: alwaysFailAttempt :: alwaysFailAttempt :: extra)).exited
        = true
      ∧ (runLoop { maxRetries := 2, connectionTimeout := some 10000,
                   reconnectionDelay := Sum.inl 0 } initialHandle
          (alwaysFailAttempt :: alwaysFailAttempt :: alwaysFailAttempt :: extra)).handle.terminationReason
        = some { code := ErrorCode.RECONNECTION_LIMIT, cause := none } := by
  intro extra
  exact ⟨rfl, rfl, rfl, rfl⟩

/-- C1: a `close(code, reason, permanently = false)` call never
dispatches a terminate event, and the attempt it ends leaves the loop
running: the iteration neither exits nor stalls (so the loop processes
the next input and creates a new socket) whenever the retry budget is
not exhausted; a default `close()` on a non-terminated handle
dispatches exactly one terminate event with code `TERMINATED_BY_USER`
and terminates the handle, and the iteration observing it exits the
loop, which creates no further socket no matter how much further
input the environment supplies. -/
theorem claim_C1_close_permanent_flag :
    (∀ (h : Handle) (code : Option Nat) (reason : String),
        countTerm (close h code reason false).events = 0)
    ∧ (∀ (cfg : Config) (h : Handle) (code : Option Nat) (reason : String)
          (d : Nat),
        h.isTerminated = false →
        h.attempt < cfg.maxRetries →
        cfg.reconnectionDelay = Sum.inl d →
        (runIter cfg h
            (IterInput.attempt [SockNotif.userClose code reason false] false)).exited
            = false
        ∧ (runIter cfg h
            (IterInput.attempt [SockNotif.userClose code reason false] false)).stalled
            = false
        ∧ countTerm (runIter cfg h
            (IterInput.attempt [SockNotif.userClose code reason false] false)).events
            = 0)
    ∧ (∀ (cfg : Config) (h : Handle) (code : Option Nat) (reason : String)
          (d : Nat) (rest : List IterInput),
        h.isTerminated = false →
        h.attempt < cfg.maxRetries →
        cfg.reconnectionDelay = Sum.inl d →
        (runLoop cfg h
            (IterInput.attempt [SockNotif.userClose code reason false] false
              :: rest)).creations
          = 1 + (runLoop cfg
              (runIter cfg h
                (IterInput.attempt [SockNotif.userClose code reason false]
                  false)).handle rest).creations)
    ∧ (∀ (h : Handle) (code : Option Nat) (reason : String),
        h.isTerminated = false →
        (close h code reason true).events
            = [Event.terminate { code := ErrorCode.TERMINATED_BY_USER,
                                 cause := none }]
        ∧ (close h code reason true).handle.isTerminated = true)
    ∧ (∀ (cfg : Config) (h : Handle) (code : Option Nat) (reason : String)
          (b : Bool) (rest : List IterInput),
        (runLoop cfg h
            (IterInput.attempt [SockNotif.userClose code reason true] b
              :: rest)).creations = 1
        ∧ (runLoop cfg h
            (IterInput.attempt [SockNotif.userClose code reason true] b
              :: rest)).exited = true
        ∧ (runLoop cfg h
            (IterInput.attempt [SockNotif.userClose code reason true] b
              :: rest)).handle.isTerminated = true) := by
  have hiter : ∀ (cfg : Config) (h : Handle) (code : Option Nat)
      (reason : String) (d : Nat),
      h.isTerminated = false → h.attempt < cfg.maxRetries →
      cfg.reconnectionDelay = Sum.inl d →
      runIter cfg h
          (IterInput.attempt [SockNotif.userClose code reason false] false)
        = { handle :=
              { h with attempt := h.attempt + 1, socketState := ReadyState.CLOSING },
            events := [Event.closeE { code := 1006, reason := "", wasClean := false }],
            exited := false, stalled := false, created := true,
            sleptDelay := some d } := by
    intro cfg h code reason d ht hlt hrd
    have ha : h.aborted = false := by simpa [Handle.isTerminated] using ht
    simp [runIter, processNotifs, close, closeRS, Handle.isTerminated, ha,
          Nat.not_le.mpr hlt, hrd]
  refine ⟨?_, ?_, ?_, ?_, ?_⟩
  · intro h code reason
    rfl
  · intro cfg h code reason d ht hlt hrd
    rw [hiter cfg h code reason d ht hlt hrd]
    refine ⟨rfl, rfl, ?_⟩
    simp [countTerm, Event.isTerminate]
  · intro cfg h code reason d rest ht hlt hrd
    simp only [runLoop]
    rw [hiter cfg h code reason d ht hlt hrd]
    simp
  · intro h code reason ht
    have ha : h.aborted = false := by simpa [Handle.isTerminated] using ht
    constructor
    · simp [close, cleanup, Handle.isTerminated, ha]
    · simpa [Handle.isTerminated] using close_perm_aborted h code reason
  · intro cfg h code reason b rest
    have ha2 : (close { h with socketState := ReadyState.CONNECTING }
        code reason true).handle.aborted = true := close_perm_aborted _ _ _
    have hsyn : (close { h with socketState := ReadyState.CONNECTING }
        code reason true).synthetic
        = some { code := 1006, reason := "", wasClean := false } := by
      simp [close]
    refine ⟨?_, ?_, ?_⟩ <;>
      simp [runLoop, runIter, processNotifs, hsyn, Handle.isTerminated, ha2]

/-- Witness for C1: from the constructor state with retry budget 3 and
constant zero delay, the iteration ended by a non-permanent close
continues the loop (and the loop proceeds to a second socket with one
more input), while a default permanent close terminates with a single
`TERMINATED_BY_USER` terminate event. -/
theorem claim_C1_close_permanent_flag_witness :
    (runIter { maxRetries := 3, connectionTimeout := none,
               reconnectionDelay := Sum.inl 0 } initialHandle
        (IterInput.attempt [SockNotif.userClose (some 1000) "later" false]
          false)).exited = false
    ∧ (runLoop { maxRetries := 3, connectionTimeout := none,
                 reconnectionDelay := Sum.inl 0 } initialHandle
        (IterInput.attempt [SockNotif.userClose (some 1000) "later" false] false
          :: [alwaysFailAttempt])).creations
      = 1 + (runLoop { maxRetries := 3, connectionTimeout := none,
                       reconnectionDelay := Sum.inl 0 }
          (runIter { maxRetries := 3, connectionTimeout := none,
                     reconnectionDelay := Sum.inl 0 } initialHandle
            (IterInput.attempt [SockNotif.userClose (some 1000) "later" false]
              false)).handle [alwaysFailAttempt]).creations
    ∧ (close initialHandle none "" true).events
      = [Event.terminate { code := ErrorCode.TERMINATED_BY_USER, cause := none }]
    ∧ (runLoop { maxRetries := 3, connectionTimeout := none,
                 reconnectionDelay := Sum.inl 0 } initialHandle
        (IterInput.attempt [SockNotif.userClose none "" true] false
          :: [alwaysFailAttempt])).creations = 1 := by
  refine ⟨?_, ?_, ?_, ?_⟩
  · exact (claim_C1_close_permanent_flag.2.1 _ initialHandle (some 1000)
      "later" 0 rfl (by decide) rfl).1
  · exact claim_C1_close_permanent_flag.2.2.1 _ initialHandle (some 1000)
      "later" 0 [alwaysFailAttempt] rfl (by decide) rfl
  · exact (claim_C1_close_permanent_flag.2.2.2.1 initialHandle none "" rfl).1
  · exact (claim_C1_close_permanent_flag.2.2.2.2 _ initialHandle none "" false
      [alwaysFailAttempt]).1

/-- C4: every exit of the reconnection loop leaves the handle
terminated with a reason whose code is one of `RECONNECTION_LIMIT`,
`TERMINATED_BY_USER` or `UNKNOWN_ERROR`; an exception escaping socket
creation is caught at the loop boundary and converted into permanent
termination with code `UNKNOWN_ERROR` carrying the original fault as
the cause, and likewise for an exception thrown by the
reconnection-delay function. -/
theorem claim_C4_every_exit_terminates :
    (∀ (cfg : Config) (h : Handle) (inputs : List IterInput),
        Inv h →
        (runLoop cfg h inputs).exited = true →
        (runLoop cfg h inputs).handle.isTerminated = true
        ∧ ∃ e : RWSError,
            (runLoop cfg h inputs).handle.terminationReason = some e
            ∧ (e.code = ErrorCode.RECONNECTION_LIMIT
               ∨ e.code = ErrorCode.TERMINATED_BY_USER
               ∨ e.code = ErrorCode.UNKNOWN_ERROR))
    ∧ (∀ (cfg : Config) (h : Handle) (fault : String),
        h.isTerminated = false →
        (runIter cfg h (IterInput.createThrows fault)).events
            = [Event.terminate { code := ErrorCode.UNKNOWN_ERROR,
                                 cause := some fault }]
        ∧ (runIter cfg h (IterInput.createThrows fault)).handle.terminationReason
            = some { code := ErrorCode.UNKNOWN_ERROR, cause := some fault }
        ∧ (runIter cfg h (IterInput.createThrows fault)).exited = true)
    ∧ (∀ (cfg : Config) (h : Handle) (f : Nat → Except String Nat)
          (fault : String) (info : CloseInfo),
        cfg.reconnectionDelay = Sum.inr f →
        h.isTerminated = false →
        h.attempt < cfg.maxRetries →
        f h.attempt = Except.error fault →
        (runIter cfg h (IterInput.attempt [SockNotif.closed info] false)).exited
            = true
        ∧ (runIter cfg h (IterInput.attempt [SockNotif.closed info] false)).events
            = [Event.closeE info,
               Event.terminate { code := ErrorCode.UNKNOWN_ERROR,
                                 cause := some fault }]
        ∧ (runIter cfg h
            (IterInput.attempt [SockNotif.closed info] false)).handle.terminationReason
            = some { code := ErrorCode.UNKNOWN_ERROR, cause := some fault }) := by
  refine ⟨?_, ?_, ?_⟩
  · intro cfg h inputs hi he
    have ha := runLoop_exit_aborted cfg inputs h he
    have hI := runLoop_Inv cfg inputs h hi
    refine ⟨by simpa [Handle.isTerminated] using ha, ?_⟩
    have hsome : ((runLoop cfg h inputs).handle.abortReason).isSome = true := by
      rw [← hI]
      exact ha
    obtain ⟨e, he2⟩ := Option.isSome_iff_exists.mp hsome
    refine ⟨e, by simpa [Handle.terminationReason] using he2, ?_⟩
    obtain ⟨ec, eca⟩ := e
    cases ec <;> simp
  · intro cfg h fault ht
    have ha : h.aborted = false := by simpa [Handle.isTerminated] using ht
    rw [show runIter cfg h (IterInput.createThrows fault)
        = { handle := (cleanup h ErrorCode.UNKNOWN_ERROR (some fault)).1,
            events := (cleanup h ErrorCode.UNKNOWN_ERROR (some fault)).2,
            exited := true, stalled := false, created := false,
            sleptDelay := none } from rfl]
    rw [cleanup_set h _ _ ha]
    exact ⟨rfl, rfl, rfl⟩
  · intro cfg h f fault info hrd ht hlt hf
    have ha : h.aborted = false := by simpa [Handle.isTerminated] using ht
    refine ⟨?_, ?_, ?_⟩ <;>
      simp [runIter, processNotifs, Handle.isTerminated,
            Handle.terminationReason, ha, Nat.not_le.mpr hlt, hrd, hf,
            cleanup]

/-- Witness for C4: a creation failure from the constructor state
exits the loop terminated with `UNKNOWN_ERROR` carrying the fault, and
a throwing delay function likewise, after the attempt close event. -/
theorem claim_C4_every_exit_terminates_witness :
    ((runLoop { maxRetries := 3, connectionTimeout := none,
                reconnectionDelay := Sum.inl 0 } initialHandle
        [IterInput.createThrows "boom"]).handle.isTerminated = true
      ∧ ∃ e : RWSError,
          (runLoop { maxRetries := 3, connectionTimeout := none,
                     reconnectionDelay := Sum.inl 0 } initialHandle
              [IterInput.createThrows "boom"]).handle.terminationReason = some e
          ∧ (e.code = ErrorCode.RECONNECTION_LIMIT
             ∨ e.code = ErrorCode.TERMINATED_BY_USER
             ∨ e.code = ErrorCode.UNKNOWN_ERROR))
    ∧ (runIter { maxRetries := 3, connectionTimeout := none,
                 reconnectionDelay := Sum.inl 0 } initialHandle
        (IterInput.createThrows "boom")).events
      = [Event.terminate { code := ErrorCode.UNKNOWN_ERROR,
                           cause := some "boom" }]
    ∧ (runIter { maxRetries := 3, connectionTimeout := none,
                 reconnectionDelay := Sum.inr (fun _ => Except.error "bad") }
        initialHandle
        (IterInput.attempt
          [SockNotif.closed { code := 1002, reason := "", wasClean := false }]
          false)).handle.terminationReason
      = some { code := ErrorCode.UNKNOWN_ERROR, cause := some "bad" } := by
  refine ⟨?_, ?_, ?_⟩
  · exact claim_C4_every_exit_terminates.1 _ initialHandle
      [IterInput.createThrows "boom"] rfl rfl
  · exact (claim_C4_every_exit_terminates.2.1 _ initialHandle "boom" rfl).1
  · exact (claim_C4_every_exit_terminates.2.2 _ initialHandle
      (fun _ => Except.error "bad") "bad" _ rfl rfl (by decide) rfl).2.2

end RWS
